import Mathlib

/-!
# Verification of the Not-Ready overlap analyzer

Shallow embedding of the algorithmic core of `src/streamlit_app.py`:
the duration parser (`parse_duration`, lines 60-64), the timestamp
parser (`pd.to_datetime` with format `%Y/%m/%d %H:%M:%S`, lines 54-57),
the interval builder (lines 50-70), the pairwise overlap detector
(lines 77-119) and the "most problematic pairs" ranking (lines 403-415).

Timestamps are modelled as integer seconds on a proleptic Gregorian
calendar (the civil-days algorithm), so differences between two parsed
timestamps agree with real elapsed seconds.  Python exceptions are
modelled with `Except`: the script has no `try`/`except`, so any raised
exception aborts the whole run, which `Except.error` captures.
-/

namespace NotReady

/-- Python exception kinds that the script can raise while parsing. -/
inductive PyError where
  | valueError
  | indexError
deriving DecidableEq, Repr

/-- Python `str.split(sep)` for a one-character separator, on the
character list of the string: `"".split(sep)` gives `[""]`, and `n`
separators give `n + 1` (possibly empty) fields. -/
def splitOnChar (sep : Char) : List Char → List (List Char)
  | [] => [[]]
  | c :: cs =>
    if c = sep then [] :: splitOnChar sep cs
    else
      match splitOnChar sep cs with
      | [] => [[c]]
      | g :: gs => (c :: g) :: gs

/-- `s.split(sep)` as a list of strings. -/
def pySplit (s : String) (sep : Char) : List String :=
  (splitOnChar sep s.data).map (fun cs => String.mk cs)

/-- Strip leading and trailing whitespace, as Python `int()` does
before parsing. -/
def pyStrip (cs : List Char) : List Char :=
  ((cs.dropWhile (fun c => c.isWhitespace)).reverse.dropWhile
    (fun c => c.isWhitespace)).reverse

/-- Value of a string of ASCII decimal digits. -/
def digitsVal (cs : List Char) : Nat :=
  cs.foldl (fun a c => a * 10 + (c.toNat - 48)) 0

/-- Python's `int(s)` on a decimal string: optional surrounding
whitespace, optional sign, then one or more ASCII digits.
`none` models a raised `ValueError`. -/
def pyInt (s : String) : Option Int :=
  match pyStrip s.data with
  | [] => none
  | c :: rest =>
    if c = '-' then
      if !rest.isEmpty && rest.all Char.isDigit then
        some (-(digitsVal rest : Int))
      else none
    else if c = '+' then
      if !rest.isEmpty && rest.all Char.isDigit then
        some ((digitsVal rest : Int))
      else none
    else
      if (c :: rest).all Char.isDigit then
        some ((digitsVal (c :: rest) : Int))
      else none

/-- The body of `parse_duration` after `duration_str.split(':')`
(line 63-64 of the source):
`int(parts[0]) * 3600 + int(parts[1]) * 60 + int(parts[2])`,
evaluated left to right, so a non-numeric early field raises
`ValueError` before a missing later field raises `IndexError`.
Fields beyond the third are never read. -/
def parse_parts : List String → Except PyError Int
  | [] => Except.error PyError.indexError
  | [p0] =>
    match pyInt p0 with
    | none => Except.error PyError.valueError
    | some _ => Except.error PyError.indexError
  | [p0, p1] =>
    match pyInt p0 with
    | none => Except.error PyError.valueError
    | some _ =>
      match pyInt p1 with
      | none => Except.error PyError.valueError
      | some _ => Except.error PyError.indexError
  | p0 :: p1 :: p2 :: _ =>
    match pyInt p0 with
    | none => Except.error PyError.valueError
    | some h =>
      match pyInt p1 with
      | none => Except.error PyError.valueError
      | some m =>
        match pyInt p2 with
        | none => Except.error PyError.valueError
        | some s => Except.ok (h * 3600 + m * 60 + s)

/-- `parse_duration` (source lines 60-64).  `none` models a pandas
missing value (`NaN`), for which `pd.isna` returns true and the
function returns `0`; any actual string is split on `:` and the first
three fields are converted with `int`. -/
def parse_duration (duration : Option String) : Except PyError Int :=
  match duration with
  | none => Except.ok 0
  | some s => parse_parts (pySplit s ':')

/-- Gregorian leap-year rule. -/
def isLeapYear (y : Nat) : Bool :=
  y % 4 == 0 && (y % 100 != 0 || y % 400 == 0)

/-- Length of month `m` of year `y`. -/
def daysInMonth (y m : Nat) : Nat :=
  if m == 2 then (if isLeapYear y then 29 else 28)
  else if m == 4 || m == 6 || m == 9 || m == 11 then 30
  else 31

/-- Days since 1970-01-01 of the civil date `y-m-d` (the standard
civil-days algorithm; all intermediate quantities are nonnegative for
the four-digit years accepted by the timestamp format, so truncating
division agrees with floor division). -/
def daysFromCivil (y m d : Int) : Int :=
  let yy := if m ≤ 2 then y - 1 else y
  let era := yy / 400
  let yoe := yy - era * 400
  let mp := (m + 9) % 12
  let doy := (153 * mp + 2) / 5 + d - 1
  let doe := yoe * 365 + yoe / 4 - yoe / 100 + doy
  era * 146097 + doe - 719468

/-- Seconds since the epoch of `y-m-d h:mi:s`. -/
def toEpoch (y mo d h mi s : Nat) : Int :=
  daysFromCivil (y : Int) (mo : Int) (d : Int) * 86400
    + (h : Int) * 3600 + (mi : Int) * 60 + (s : Int)

/-- All-digit field of bounded width, as `strptime`'s directives
match: at least one and at most `w` ASCII digits. -/
def digitField (s : String) (w : Nat) : Option Nat :=
  if !s.data.isEmpty && s.data.length ≤ w && s.data.all Char.isDigit then
    some (digitsVal s.data)
  else none

/-- `pd.to_datetime(DATE + ' ' + TIME, format='%Y/%m/%d %H:%M:%S')`
for one row (source lines 54-57): `%Y` takes exactly four digits, the
other directives one or two digits, the month/day/hour/minute/second
ranges are validated, and any mismatch raises (modelled by `none`). -/
def parse_datetime (date time : String) : Option Int :=
  match pySplit date '/', pySplit time ':' with
  | [ys, ms, ds], [hs, mis, ss] =>
    match digitField ys 4, digitField ms 2, digitField ds 2,
          digitField hs 2, digitField mis 2, digitField ss 2 with
    | some y, some mo, some d, some h, some mi, some s =>
      if ys.length == 4 && 1 ≤ y && 1 ≤ mo && mo ≤ 12
          && 1 ≤ d && d ≤ daysInMonth y mo
          && h ≤ 23 && mi ≤ 59 && s ≤ 59 then
        some (toEpoch y mo d h mi s)
      else none
    | _, _, _, _, _, _ => none
  | _, _ => none

/-- One CSV row with the columns the script reads.  `AGENT_STATE_TIME`
is `Option` because pandas represents a missing duration cell as `NaN`
(`none` here); the other fields are taken as present strings. -/
structure Row where
  AGENT : String
  STATE : String
  REASON_CODE : String
  DATE : String
  TIME : String
  AGENT_STATE_TIME : Option String
deriving DecidableEq, Repr

/-- A built Not-Ready interval: the columns the detector reads from
`not_ready_df` (source lines 54-70). -/
structure Interval where
  agent : String
  reason : String
  start_datetime : Int
  end_datetime : Int
  is_lunch : Bool
deriving DecidableEq, Repr

/-- `df[df['STATE'] == 'Not Ready']` (source line 50). -/
def not_ready_rows (rows : List Row) : List Row :=
  rows.filter (fun r => r.STATE == "Not Ready")

/-- The per-row action of the `pd.to_datetime` call (source lines
54-57): a parse failure raises `ValueError`. -/
def parse_start (r : Row) : Except PyError Int :=
  match parse_datetime r.DATE r.TIME with
  | some t => Except.ok t
  | none => Except.error PyError.valueError

/-- The per-row action of `.apply(parse_duration)` (source line 66). -/
def row_duration (r : Row) : Except PyError Int :=
  parse_duration r.AGENT_STATE_TIME

/-- The interval-building pipeline (source lines 50-70): filter rows
with `STATE == 'Not Ready'`, parse every timestamp column-wise (any
failure raises and aborts the run), then parse every duration
column-wise (same), set `end = start + duration` and `is_lunch` by
exact membership of `REASON CODE` in the configured code list. -/
def build_intervals (lunch_codes : List String) (rows : List Row) :
    Except PyError (List Interval) := do
  let starts ← (not_ready_rows rows).mapM parse_start
  let durs ← (not_ready_rows rows).mapM row_duration
  Except.ok (((not_ready_rows rows).zip (starts.zip durs)).map (fun rtd =>
    { agent := rtd.1.AGENT
      reason := rtd.1.REASON_CODE
      start_datetime := rtd.2.1
      end_datetime := rtd.2.1 + rtd.2.2
      is_lunch := lunch_codes.contains rtd.1.REASON_CODE }))

/-- One detected overlap, with the fields of the dictionary appended
at source lines 105-119 that downstream computation reads. -/
structure OverlapRecord where
  agent1 : String
  agent2 : String
  overlap_start : Int
  overlap_end : Int
  duration_seconds : Int
  reason1 : String
  reason2 : String
  is_lunch1 : Bool
  is_lunch2 : Bool
  overlap_type : String
deriving DecidableEq, Repr

/-- The body of the inner loop (source lines 79-119) for one ordered
pair of records: skip same agent, skip unless at least one is on
lunch, compute the window by `max`/`min`, and emit a record only when
the window is strictly nonempty.  The source's `overlap_start` and
`overlap_end` locals are inlined. -/
def mk_overlap (rec1 rec2 : Interval) : Option OverlapRecord :=
  if rec1.agent == rec2.agent then none
  else if !(rec1.is_lunch || rec2.is_lunch) then none
  else if max rec1.start_datetime rec2.start_datetime
      < min rec1.end_datetime rec2.end_datetime then
    some
      { agent1 := rec1.agent
        agent2 := rec2.agent
        overlap_start := max rec1.start_datetime rec2.start_datetime
        overlap_end := min rec1.end_datetime rec2.end_datetime
        duration_seconds := min rec1.end_datetime rec2.end_datetime
          - max rec1.start_datetime rec2.start_datetime
        reason1 := rec1.reason
        reason2 := rec2.reason
        is_lunch1 := rec1.is_lunch
        is_lunch2 := rec2.is_lunch
        overlap_type :=
          if rec1.is_lunch && rec2.is_lunch then "Both on Lunch"
          else if rec1.is_lunch then rec1.agent ++ " on Lunch"
          else rec2.agent ++ " on Lunch" }
  else none

/-- `range(i + 1, n)` as the sublist of `range(n)` beyond `i`. -/
def innerRange (i n : Nat) : List Nat :=
  (List.range n).filter (fun j => i < j)

/-- The index pairs `(i, j)` with `i < j < n` visited by the nested
loops `for i in range(len(records)): for j in range(i + 1, ...)`
(source lines 77-78), in visiting order. -/
def indexPairs (n : Nat) : List (Nat × Nat) :=
  (List.range n).flatMap (fun i => (innerRange i n).map (fun j => (i, j)))

/-- The full detector (source lines 73-119): visit every index pair
`i < j` once and collect the records `mk_overlap` emits. -/
def find_overlaps (records : List Interval) : List OverlapRecord :=
  (indexPairs records.length).filterMap (fun p =>
    match records[p.1]?, records[p.2]? with
    | some r1, some r2 => mk_overlap r1 r2
    | _, _ => none)

/-- Lexicographic-or-equal order on agent-name pairs, the order in
which `groupby(['Agent 1', 'Agent 2'])` (with its default
`sort=True`) arranges the group keys. -/
def pairLe (a b : String × String) : Bool :=
  match compare a.1 b.1 with
  | Ordering.lt => true
  | Ordering.gt => false
  | Ordering.eq => compare a.2 b.2 != Ordering.gt

/-- `filtered_df[filtered_df['Overlap Type'] == 'Both on Lunch']`
(source line 374). -/
def both_lunch_of (records : List OverlapRecord) : List OverlapRecord :=
  records.filter (fun r => r.overlap_type == "Both on Lunch")

/-- Per-key incident counts: for each group key, the number of records
carrying that `(Agent 1, Agent 2)` pair (the `'count'` aggregate of
source line 408, since the duration column has no missing values). -/
def group_counts (bl : List OverlapRecord) (keys : List (String × String)) :
    List ((String × String) × Nat) :=
  keys.map (fun k => (k, (bl.filter (fun r => (r.agent1, r.agent2) == k)).length))

/-- The grouped incident table of source line 408:
`groupby(['Agent 1', 'Agent 2'])` over the both-on-lunch records —
pandas `groupby` (default `sort=True`) emits the group keys in sorted
(lexicographic) order, modelled by a stable sort of the keys in
first-occurrence order under `pairLe`. -/
def grouped_counts (records : List OverlapRecord) :
    List ((String × String) × Nat) :=
  group_counts (both_lunch_of records)
    (List.insertionSort (fun a b => pairLe a b = true)
      (((both_lunch_of records).map (fun r => (r.agent1, r.agent2))).dedup))

/-- The "most problematic pairs" ranking (source lines 408-410):
the grouped table, then `sort_values('Incidents', ascending=False)` —
pandas `nargsort` reverses the values and indices both before the
ascending argsort and after it (the fix for pandas issue 6399), so
the descending sort is stable: rows with tied counts keep their
pre-sort order, which is the groupby's lexicographic key order —
then `head(5)`.  Modelled as a stable descending sort. -/
def problematic_pairs (records : List OverlapRecord) :
    List ((String × String) × Nat) :=
  (List.insertionSort (fun a b => b.2 ≤ a.2) (grouped_counts records)).take 5

/-- Modelled from the spec: "Top-N (N=5) agent-pair ranking by
incident count, restricted to the 'both flagged' category, ties broken
by insertion order (stable sort on count descending)."  Groups appear
in first-occurrence (insertion) order and a stable sort on count
descending keeps tied groups in that order. -/
def problematic_pairs_spec (records : List OverlapRecord) :
    List ((String × String) × Nat) :=
  (List.insertionSort (fun a b => b.2 ≤ a.2)
    (group_counts (both_lunch_of records)
      (((both_lunch_of records).map (fun r => (r.agent1, r.agent2))).dedup))).take 5

/-- The category mapping the produced records actually follow, read
off source lines 98-103: a function of the two lunch flags and the two
agent names (the agent name is interpolated into the label). -/
def categorize (fl1 fl2 : Bool) (ag1 ag2 : String) : String :=
  if fl1 && fl2 then "Both on Lunch"
  else if fl1 then ag1 ++ " on Lunch"
  else ag2 ++ " on Lunch"

/-! ## Helper lemmas about the detector -/

theorem mk_overlap_none_of_no_window {rec1 rec2 : Interval}
    (h : ¬ max rec1.start_datetime rec2.start_datetime
        < min rec1.end_datetime rec2.end_datetime) :
    mk_overlap rec1 rec2 = none := by
  unfold mk_overlap
  simp only [if_neg h]
  split
  · rfl
  · split <;> rfl

theorem mk_overlap_some_inv {rec1 rec2 : Interval} {o : OverlapRecord}
    (h : mk_overlap rec1 rec2 = some o) :
    rec1.agent ≠ rec2.agent ∧
    (rec1.is_lunch || rec2.is_lunch) = true ∧
    max rec1.start_datetime rec2.start_datetime
      < min rec1.end_datetime rec2.end_datetime ∧
    o = { agent1 := rec1.agent
          agent2 := rec2.agent
          overlap_start := max rec1.start_datetime rec2.start_datetime
          overlap_end := min rec1.end_datetime rec2.end_datetime
          duration_seconds := min rec1.end_datetime rec2.end_datetime
            - max rec1.start_datetime rec2.start_datetime
          reason1 := rec1.reason
          reason2 := rec2.reason
          is_lunch1 := rec1.is_lunch
          is_lunch2 := rec2.is_lunch
          overlap_type := categorize rec1.is_lunch rec2.is_lunch
            rec1.agent rec2.agent } := by
  unfold mk_overlap at h
  rcases hag : rec1.agent == rec2.agent with _ | _
  · rcases hfl : !(rec1.is_lunch || rec2.is_lunch) with _ | _
    · rw [hag, hfl] at h
      simp only [Bool.false_eq_true, if_false] at h
      by_cases hw : max rec1.start_datetime rec2.start_datetime
          < min rec1.end_datetime rec2.end_datetime
      · rw [if_pos hw] at h
        injection h with h2
        refine ⟨by simpa using hag, Bool.not_eq_false' _ ▸ hfl, hw, ?_⟩
        rw [← h2]
        simp [categorize]
      · rw [if_neg hw] at h
        exact absurd h (by simp)
    · rw [hag, hfl] at h
      simp at h
  · rw [hag] at h
    simp at h

theorem mk_overlap_eq_some_of {rec1 rec2 : Interval}
    (hag : rec1.agent ≠ rec2.agent)
    (hfl : (rec1.is_lunch || rec2.is_lunch) = true)
    (hw : max rec1.start_datetime rec2.start_datetime
        < min rec1.end_datetime rec2.end_datetime) :
    mk_overlap rec1 rec2 =
      some { agent1 := rec1.agent
             agent2 := rec2.agent
             overlap_start := max rec1.start_datetime rec2.start_datetime
             overlap_end := min rec1.end_datetime rec2.end_datetime
             duration_seconds := min rec1.end_datetime rec2.end_datetime
               - max rec1.start_datetime rec2.start_datetime
             reason1 := rec1.reason
             reason2 := rec2.reason
             is_lunch1 := rec1.is_lunch
             is_lunch2 := rec2.is_lunch
             overlap_type := categorize rec1.is_lunch rec2.is_lunch
               rec1.agent rec2.agent } := by
  unfold mk_overlap
  rw [if_neg (by simpa using hag), if_neg (by simp [hfl]), if_pos hw]
  simp [categorize]

theorem mk_overlap_isSome_iff {rec1 rec2 : Interval}
    (hag : rec1.agent ≠ rec2.agent)
    (hfl : (rec1.is_lunch || rec2.is_lunch) = true) :
    (mk_overlap rec1 rec2).isSome = true ↔
      max rec1.start_datetime rec2.start_datetime
        < min rec1.end_datetime rec2.end_datetime := by
  constructor
  · intro h
    by_contra hw
    rw [mk_overlap_none_of_no_window hw] at h
    simp at h
  · intro hw
    rw [mk_overlap_eq_some_of hag hfl hw]
    rfl

theorem mem_indexPairs {n : Nat} {p : Nat × Nat} :
    p ∈ indexPairs n ↔ p.1 < p.2 ∧ p.2 < n := by
  unfold indexPairs innerRange
  simp only [List.mem_flatMap, List.mem_map, List.mem_filter, List.mem_range,
    decide_eq_true_eq]
  constructor
  · rintro ⟨i, hi, j, ⟨⟨hj, hij⟩, rfl⟩⟩
    exact ⟨hij, hj⟩
  · rintro ⟨h12, h2⟩
    exact ⟨p.1, Nat.lt_trans h12 h2, p.2, ⟨⟨h2, h12⟩, rfl⟩⟩

theorem nodup_indexPairs (n : Nat) : (indexPairs n).Nodup := by
  unfold indexPairs
  rw [List.nodup_flatMap]
  refine ⟨fun i _ => ?_, ?_⟩
  · exact (((List.nodup_range n).filter _).map
      (fun a b hab => by simpa using hab))
  · refine (List.pairwise_lt_range n).imp ?_
    intro a b hab
    intro x hxa hxb
    simp only [List.mem_map] at hxa hxb
    obtain ⟨ja, _, rfl⟩ := hxa
    obtain ⟨jb, _, hx⟩ := hxb
    have : b = a := (Prod.mk.injEq _ _ _ _).mp hx |>.1
    omega

theorem mem_find_overlaps {records : List Interval} {o : OverlapRecord}
    (h : o ∈ find_overlaps records) :
    ∃ rec1 rec2, rec1 ∈ records ∧ rec2 ∈ records ∧
      mk_overlap rec1 rec2 = some o := by
  unfold find_overlaps at h
  rw [List.mem_filterMap] at h
  obtain ⟨p, _, hm⟩ := h
  cases h1 : records[p.1]? with
  | none => rw [h1] at hm; simp at hm
  | some r1 =>
    cases h2 : records[p.2]? with
    | none => rw [h1, h2] at hm; simp at hm
    | some r2 =>
      rw [h1, h2] at hm
      exact ⟨r1, r2, List.getElem?_mem h1, List.getElem?_mem h2, hm⟩

theorem mk_overlap_isSome_comm (rec1 rec2 : Interval) :
    (mk_overlap rec1 rec2).isSome = (mk_overlap rec2 rec1).isSome := by
  by_cases hag : rec1.agent = rec2.agent
  · unfold mk_overlap
    rw [if_pos (by simp [hag]), if_pos (by simp [hag])]
  · by_cases hfl : (rec1.is_lunch || rec2.is_lunch) = true
    · by_cases hw : max rec1.start_datetime rec2.start_datetime
          < min rec1.end_datetime rec2.end_datetime
      · rw [mk_overlap_eq_some_of hag hfl hw,
          mk_overlap_eq_some_of (Ne.symm hag)
            (by rw [Bool.or_comm]; exact hfl)
            (by rw [max_comm, min_comm]; exact hw)]
        rfl
      · rw [mk_overlap_none_of_no_window hw,
          mk_overlap_none_of_no_window
            (by rw [max_comm, min_comm]; exact hw)]
    · have h1 : (!(rec1.is_lunch || rec2.is_lunch)) = true := by
        cases h : (rec1.is_lunch || rec2.is_lunch) <;> simp_all
      have h2 : (!(rec2.is_lunch || rec1.is_lunch)) = true := by
        rw [Bool.or_comm]; exact h1
      unfold mk_overlap
      rw [if_neg (by simpa using hag), if_pos h1,
        if_neg (by simpa using Ne.symm hag), if_pos h2]

theorem length_le_one_of_all_eq {α : Type} {l : List α} {a : α}
    (hnd : l.Nodup) (h : ∀ x ∈ l, x = a) : l.length ≤ 1 := by
  cases l with
  | nil => simp
  | cons x xs =>
    cases xs with
    | nil => simp
    | cons y ys =>
      have hx : x = a := h x (by simp)
      have hy : y = a := h y (by simp)
      have hmem : x ∈ y :: ys := by rw [hx, hy]; exact List.mem_cons_self _ _
      rw [List.nodup_cons] at hnd
      exact absurd hmem hnd.1

theorem count_unordered_pair_le_one (n i j : Nat) :
    ((indexPairs n).filter
      (fun p => decide (p = (i, j) ∨ p = (j, i)))).length ≤ 1 := by
  apply length_le_one_of_all_eq (a := if i < j then (i, j) else (j, i))
    (List.Nodup.filter _ (nodup_indexPairs n))
  intro x hx
  rw [List.mem_filter] at hx
  have hmem := mem_indexPairs.mp hx.1
  have hpred := of_decide_eq_true hx.2
  rcases hpred with h | h
  · subst h
    rw [if_pos hmem.1]
  · subst h
    have : j < i := hmem.1
    rw [if_neg (by omega)]

theorem except_bind_error {α β : Type} (e : PyError) (k : α → Except PyError β) :
    (Except.error e >>= k) = Except.error e := rfl

theorem except_bind_ok {α β : Type} (a : α) (k : α → Except PyError β) :
    (Except.ok a >>= k) = k a := rfl

theorem mapM_error_of_mem {α β : Type} {f : α → Except PyError β}
    {l : List α} {x : α} {e : PyError}
    (hx : x ∈ l) (hf : f x = Except.error e) :
    ∃ e2, l.mapM f = Except.error e2 := by
  induction l with
  | nil => cases hx
  | cons a as ih =>
    rw [List.mapM_cons]
    rcases List.mem_cons.mp hx with rfl | hmem
    · exact ⟨e, by rw [hf]; rfl⟩
    · cases hfa : f a with
      | error e3 => exact ⟨e3, rfl⟩
      | ok b =>
        obtain ⟨e2, hmap⟩ := ih hmem
        refine ⟨e2, ?_⟩
        rw [except_bind_ok, hmap]
        rfl

/-- If any Not-Ready row has an unparseable timestamp or an
unparseable duration, the whole pipeline raises (no partial output). -/
theorem build_intervals_error {codes : List String} {rows : List Row} {r : Row}
    (hm : r ∈ rows) (hs : r.STATE = "Not Ready")
    (hbad : parse_datetime r.DATE r.TIME = none ∨
      ∃ e, parse_duration r.AGENT_STATE_TIME = Except.error e) :
    ∃ e2, build_intervals codes rows = Except.error e2 := by
  have hnr : r ∈ not_ready_rows rows :=
    List.mem_filter.mpr ⟨hm, by simp [hs]⟩
  unfold build_intervals
  rcases hbad with hts | ⟨e, hdur⟩
  · obtain ⟨e2, hmap⟩ := mapM_error_of_mem (f := parse_start) hnr
      (by unfold parse_start; rw [hts])
    exact ⟨e2, by rw [hmap]; rfl⟩
  · cases hstarts : (not_ready_rows rows).mapM parse_start with
    | error e3 => exact ⟨e3, rfl⟩
    | ok starts =>
      obtain ⟨e2, hmap⟩ := mapM_error_of_mem (f := row_duration) hnr
        (by unfold row_duration; rw [hdur])
      exact ⟨e2, by rw [except_bind_ok, hmap]; rfl⟩

/-- With an empty configured code list, `isin` marks nothing, so every
built interval is unflagged. -/
theorem build_intervals_nil_codes_unflagged {rows : List Row}
    {ivs : List Interval}
    (h : build_intervals [] rows = Except.ok ivs) :
    ∀ iv ∈ ivs, iv.is_lunch = false := by
  unfold build_intervals at h
  cases hstarts : (not_ready_rows rows).mapM parse_start with
  | error e =>
    rw [hstarts, except_bind_error] at h
    exact Except.noConfusion h
  | ok starts =>
    rw [hstarts, except_bind_ok] at h
    cases hdurs : (not_ready_rows rows).mapM row_duration with
    | error e =>
      rw [hdurs, except_bind_error] at h
      exact Except.noConfusion h
    | ok durs =>
      rw [hdurs, except_bind_ok] at h
      injection h with h2
      subst h2
      intro iv hiv
      rw [List.mem_map] at hiv
      obtain ⟨rtd, _, rfl⟩ := hiv
      rfl

/-- When no interval is flagged, the at-least-one-on-lunch guard
rejects every pair, so the detector reports nothing. -/
theorem find_overlaps_nil_of_unflagged {records : List Interval}
    (h : ∀ rec ∈ records, rec.is_lunch = false) :
    find_overlaps records = [] := by
  unfold find_overlaps
  rw [List.filterMap_eq_nil_iff]
  intro p _
  cases h1 : records[p.1]? with
  | none => rfl
  | some r1 =>
    cases h2 : records[p.2]? with
    | none => rfl
    | some r2 =>
      have hr1 := h r1 (List.getElem?_mem h1)
      have hr2 := h r2 (List.getElem?_mem h2)
      show mk_overlap r1 r2 = none
      unfold mk_overlap
      split
      · rfl
      · rw [if_pos (by rw [hr1, hr2]; rfl)]

/-! ## Claim theorems -/

/-- C1: for every pair of intervals from distinct agents with at least
one flagged, an `OverlapRecord` is produced iff
`max(i.start, j.start) < min(i.end, j.end)`; touching endpoints
(`i.end = j.start`) produce no record; a zero-duration interval
produces no record in either slot; and `i.end = j.start + 1` (with the
one-second window inside both intervals) produces a 1-second window. -/
theorem C1_strict_overlap_criterion (rec1 rec2 : Interval)
    (hag : rec1.agent ≠ rec2.agent)
    (hfl : (rec1.is_lunch || rec2.is_lunch) = true) :
    ((mk_overlap rec1 rec2).isSome = true ↔
      max rec1.start_datetime rec2.start_datetime
        < min rec1.end_datetime rec2.end_datetime)
    ∧ (rec1.end_datetime = rec2.start_datetime → mk_overlap rec1 rec2 = none)
    ∧ (rec1.start_datetime = rec1.end_datetime →
        mk_overlap rec1 rec2 = none ∧ mk_overlap rec2 rec1 = none)
    ∧ (rec1.start_datetime ≤ rec2.start_datetime →
        rec1.end_datetime = rec2.start_datetime + 1 →
        rec2.start_datetime + 1 ≤ rec2.end_datetime →
        (mk_overlap rec1 rec2).map
            (fun o => (o.overlap_start, o.overlap_end, o.duration_seconds))
          = some (rec2.start_datetime, rec2.start_datetime + 1, 1)) := by
  refine ⟨mk_overlap_isSome_iff hag hfl, ?_, ?_, ?_⟩
  · intro h
    apply mk_overlap_none_of_no_window
    intro hlt
    have h1 : min rec1.end_datetime rec2.end_datetime ≤ rec1.end_datetime :=
      min_le_left _ _
    have h2 : rec2.start_datetime ≤ max rec1.start_datetime rec2.start_datetime :=
      le_max_right _ _
    omega
  · intro h
    constructor
    · apply mk_overlap_none_of_no_window
      intro hlt
      have h1 : min rec1.end_datetime rec2.end_datetime ≤ rec1.end_datetime :=
        min_le_left _ _
      have h2 : rec1.start_datetime ≤ max rec1.start_datetime rec2.start_datetime :=
        le_max_left _ _
      omega
    · apply mk_overlap_none_of_no_window
      intro hlt
      have h1 : min rec2.end_datetime rec1.end_datetime ≤ rec1.end_datetime :=
        min_le_right _ _
      have h2 : rec1.start_datetime ≤ max rec2.start_datetime rec1.start_datetime :=
        le_max_right _ _
      omega
  · intro h1 h2 h3
    have hmax : max rec1.start_datetime rec2.start_datetime
        = rec2.start_datetime := max_eq_right h1
    have hmin : min rec1.end_datetime rec2.end_datetime
        = rec1.end_datetime := min_eq_left (by omega)
    have hw : max rec1.start_datetime rec2.start_datetime
        < min rec1.end_datetime rec2.end_datetime := by
      rw [hmax, hmin]; omega
    rw [mk_overlap_eq_some_of hag hfl hw, hmax, hmin, h2]
    simp only [Option.map_some', Prod.mk.injEq]
    have hd : rec2.start_datetime + 1 - rec2.start_datetime = (1 : Int) := by omega
    rw [hd]

/-- Witness for C1 at a concrete input: agent A on lunch 0..10, agent
B off lunch 9..20 overlap in the 1-second window [9, 10). -/
theorem C1_witness :
    (mk_overlap ⟨"A", "Lunch", 0, 10, true⟩ ⟨"B", "Break", 9, 20, false⟩).map
        (fun o => (o.overlap_start, o.overlap_end, o.duration_seconds))
      = some (9, 10, 1) :=
  (C1_strict_overlap_criterion ⟨"A", "Lunch", 0, 10, true⟩
    ⟨"B", "Break", 9, 20, false⟩ (by decide) (by decide)).2.2.2
    (by decide) (by decide) (by decide)

/-- C6: the overlap window is order-independent — swapping the two
intervals yields the same `window_start`, `window_end` and duration,
and a record is produced in one order iff it is in the other — and
the nested loops visit each unordered index pair at most once (every
visited pair has `i < j`, and any unordered pair occurs at most once
in the visit list). -/
theorem C6_window_symmetric_and_pairs_unique (rec1 rec2 : Interval)
    (n i j : Nat) :
    ((mk_overlap rec1 rec2).isSome = (mk_overlap rec2 rec1).isSome)
    ∧ (∀ o1 o2, mk_overlap rec1 rec2 = some o1 →
        mk_overlap rec2 rec1 = some o2 →
        o1.overlap_start = o2.overlap_start ∧
        o1.overlap_end = o2.overlap_end ∧
        o1.duration_seconds = o2.duration_seconds)
    ∧ (∀ p ∈ indexPairs n, p.1 < p.2)
    ∧ ((indexPairs n).filter
        (fun p => decide (p = (i, j) ∨ p = (j, i)))).length ≤ 1 := by
  refine ⟨mk_overlap_isSome_comm rec1 rec2, ?_,
    fun p hp => (mem_indexPairs.mp hp).1, count_unordered_pair_le_one n i j⟩
  intro o1 o2 h1 h2
  obtain ⟨_, _, _, e1⟩ := mk_overlap_some_inv h1
  obtain ⟨_, _, _, e2⟩ := mk_overlap_some_inv h2
  subst e1
  subst e2
  refine ⟨?_, ?_, ?_⟩ <;> simp [max_comm, min_comm]

/-- Witness for C6 at a concrete input: two overlapping intervals in
both orders give the same window, and the pair lists of a 4-element
batch visit (1, 2) once. -/
theorem C6_witness :
    ((mk_overlap ⟨"A", "Lunch", 0, 10, true⟩ ⟨"B", "Break", 5, 20, false⟩).map
        (fun o => (o.overlap_start, o.overlap_end, o.duration_seconds))
      = (mk_overlap ⟨"B", "Break", 5, 20, false⟩ ⟨"A", "Lunch", 0, 10, true⟩).map
        (fun o => (o.overlap_start, o.overlap_end, o.duration_seconds)))
    ∧ ((indexPairs 4).filter
        (fun p => decide (p = (1, 2) ∨ p = (2, 1)))).length ≤ 1 := by
  have h := C6_window_symmetric_and_pairs_unique
    ⟨"A", "Lunch", 0, 10, true⟩ ⟨"B", "Break", 5, 20, false⟩ 4 1 2
  refine ⟨?_, h.2.2.2⟩
  obtain ⟨w1, w2, w3⟩ := h.2.1
    ⟨"A", "B", 5, 10, 5, "Lunch", "Break", true, false, "A on Lunch"⟩
    ⟨"B", "A", 5, 10, 5, "Break", "Lunch", false, true, "A on Lunch"⟩
    (by decide) (by decide)
  rw [show mk_overlap ⟨"A", "Lunch", 0, 10, true⟩ ⟨"B", "Break", 5, 20, false⟩
      = some ⟨"A", "B", 5, 10, 5, "Lunch", "Break", true, false, "A on Lunch"⟩
      from by decide,
    show mk_overlap ⟨"B", "Break", 5, 20, false⟩ ⟨"A", "Lunch", 0, 10, true⟩
      = some ⟨"B", "A", 5, 10, 5, "Break", "Lunch", false, true, "A on Lunch"⟩
      from by decide]
  simp [w1, w2, w3]

/-- C7: a pair of records with the same agent produces no record, and
consequently every produced record joins two distinct agents. -/
theorem C7_no_same_agent_overlap (rec1 rec2 : Interval)
    (records : List Interval) (h : rec1.agent = rec2.agent) :
    mk_overlap rec1 rec2 = none ∧
    ∀ o ∈ find_overlaps records, o.agent1 ≠ o.agent2 := by
  constructor
  · unfold mk_overlap
    rw [if_pos (by simp [h])]
  · intro o ho
    obtain ⟨r1, r2, _, _, hmk⟩ := mem_find_overlaps ho
    obtain ⟨hne, _, _, he⟩ := mk_overlap_some_inv hmk
    subst he
    simpa using hne

/-- Witness for C7 at a concrete input: agent A's two intersecting
intervals produce nothing. -/
theorem C7_witness :
    mk_overlap ⟨"A", "Lunch", 0, 10, true⟩ ⟨"A", "Break", 5, 20, false⟩ = none :=
  (C7_no_same_agent_overlap ⟨"A", "Lunch", 0, 10, true⟩
    ⟨"A", "Break", 5, 20, false⟩ [] (by decide)).1

/-- C8: every record the detector produces has at least one flagged
side (the at-least-one-on-lunch guard of source lines 86-88). -/
theorem C8_at_least_one_flagged (records : List Interval)
    (o : OverlapRecord) (h : o ∈ find_overlaps records) :
    o.is_lunch1 = true ∨ o.is_lunch2 = true := by
  obtain ⟨r1, r2, _, _, hmk⟩ := mem_find_overlaps h
  obtain ⟨_, hfl, _, he⟩ := mk_overlap_some_inv hmk
  subst he
  simpa using hfl

/-- Witness for C8 at a concrete batch whose detector output is a
single record with the first side flagged. -/
theorem C8_witness :
    (⟨"A", "B", 5, 10, 5, "Lunch", "Break", true, false,
        "A on Lunch"⟩ : OverlapRecord).is_lunch1 = true ∨
    (⟨"A", "B", 5, 10, 5, "Lunch", "Break", true, false,
        "A on Lunch"⟩ : OverlapRecord).is_lunch2 = true :=
  C8_at_least_one_flagged
    [⟨"A", "Lunch", 0, 10, true⟩, ⟨"B", "Break", 5, 20, false⟩]
    ⟨"A", "B", 5, 10, 5, "Lunch", "Break", true, false, "A on Lunch"⟩
    (by decide)

/-- C5 (amended): the category of a produced record is a pure, total
function of its two flags AND its two agent names (the agent name is
interpolated into the label); records with the same flags and the same
relevant agent name get the same category, and the `(false, false)`
branch would yield the agent-B label rather than a distinct
neither-flagged category. -/
theorem C5_category_depends_on_agents (records : List Interval)
    (o : OverlapRecord) (h : o ∈ find_overlaps records) :
    o.overlap_type = categorize o.is_lunch1 o.is_lunch2 o.agent1 o.agent2 ∧
    categorize false false o.agent1 o.agent2 = o.agent2 ++ " on Lunch" := by
  obtain ⟨r1, r2, _, _, hmk⟩ := mem_find_overlaps h
  obtain ⟨_, _, _, he⟩ := mk_overlap_some_inv hmk
  subst he
  exact ⟨rfl, rfl⟩

/-- Witness for C5's amended statement at a concrete batch. -/
theorem C5_witness :
    (⟨"A", "B", 5, 10, 5, "Lunch", "Break", true, false,
        "A on Lunch"⟩ : OverlapRecord).overlap_type
      = categorize true false "A" "B" :=
  ((C5_category_depends_on_agents
    [⟨"A", "Lunch", 0, 10, true⟩, ⟨"B", "Break", 5, 20, false⟩]
    ⟨"A", "B", 5, 10, 5, "Lunch", "Break", true, false, "A on Lunch"⟩
    (by decide)).1).trans rfl

/-- Counterexample to C5 as stated: one batch whose detector output
holds two records with the identical flag pair `(true, false)` but
different categories (the labels embed the agent names). -/
theorem C5_counterexample :
    (find_overlaps
      [⟨"A", "Lunch", 0, 10, true⟩, ⟨"B", "Break", 0, 10, false⟩,
       ⟨"C", "Lunch", 100, 110, true⟩, ⟨"D", "Break", 100, 110, false⟩]).map
        (fun o => (o.is_lunch1, o.is_lunch2, o.overlap_type))
      = [(true, false, "A on Lunch"), (true, false, "C on Lunch")] := by
  decide

/-- C2 (amended): the zero default applies only to an absent (`NaN`)
duration; an unparseable duration string raises and aborts the whole
run instead of being kept as zero. -/
theorem C2_zero_default_only_for_missing (codes : List String)
    (rows : List Row) (r : Row) (e : PyError)
    (hm : r ∈ rows) (hs : r.STATE = "Not Ready")
    (hdur : parse_duration r.AGENT_STATE_TIME = Except.error e) :
    parse_duration none = Except.ok 0 ∧
    ∃ e2, build_intervals codes rows = Except.error e2 :=
  ⟨rfl, build_intervals_error hm hs (Or.inr ⟨e, hdur⟩)⟩

/-- Witness for C2's amended statement at a concrete batch with an
unparseable duration. -/
theorem C2_witness :
    parse_duration none = Except.ok 0 ∧
    ∃ e2, build_intervals ["Lunch"]
      [⟨"A", "Not Ready", "Lunch", "2024/01/15", "12:00:00", some "abc"⟩]
      = Except.error e2 :=
  C2_zero_default_only_for_missing ["Lunch"]
    [⟨"A", "Not Ready", "Lunch", "2024/01/15", "12:00:00", some "abc"⟩]
    ⟨"A", "Not Ready", "Lunch", "2024/01/15", "12:00:00", some "abc"⟩
    PyError.valueError (by decide) (by decide) rfl

/-- Counterexample to C2 as stated: the unparseable duration string
`"abc"` raises `ValueError` (it is not treated as zero seconds). -/
theorem C2_counterexample :
    parse_duration (some "abc") = Except.error PyError.valueError ∧
    parse_duration (some "abc") ≠ Except.ok 0 :=
  ⟨rfl, fun h => Except.noConfusion ((rfl :
    parse_duration (some "abc") = Except.error PyError.valueError).symm.trans h)⟩

/-- C3 (amended): a malformed row (bad timestamp or bad duration)
makes the whole batch fail with an error: no interval list is
produced, so the row is not merely excluded. -/
theorem C3_malformed_row_aborts_batch (codes : List String)
    (rows : List Row) (r : Row) (hm : r ∈ rows) (hs : r.STATE = "Not Ready")
    (hbad : parse_datetime r.DATE r.TIME = none ∨
      ∃ e, parse_duration r.AGENT_STATE_TIME = Except.error e) :
    ∃ e2, build_intervals codes rows = Except.error e2 :=
  build_intervals_error hm hs hbad

/-- Witness for C3's amended statement at a concrete batch with a
malformed timestamp row. -/
theorem C3_witness :
    ∃ e2, build_intervals ["Lunch"]
      [⟨"A", "Not Ready", "Lunch", "2024/01/15", "99:00:00", some "0:30:00"⟩,
       ⟨"B", "Not Ready", "Lunch", "2024/01/15", "12:00:00", some "0:30:00"⟩]
      = Except.error e2 :=
  C3_malformed_row_aborts_batch ["Lunch"]
    [⟨"A", "Not Ready", "Lunch", "2024/01/15", "99:00:00", some "0:30:00"⟩,
     ⟨"B", "Not Ready", "Lunch", "2024/01/15", "12:00:00", some "0:30:00"⟩]
    ⟨"A", "Not Ready", "Lunch", "2024/01/15", "99:00:00", some "0:30:00"⟩
    (by decide) (by decide) (Or.inl (by decide))

/-- Counterexample to C3 as stated: a batch with one malformed-time
row and one good row aborts entirely with `ValueError` — the good row
is not processed — while the good row alone succeeds. -/
theorem C3_counterexample :
    build_intervals ["Lunch"]
      [⟨"A", "Not Ready", "Lunch", "2024/01/15", "99:00:00", some "0:30:00"⟩,
       ⟨"B", "Not Ready", "Lunch", "2024/01/15", "12:00:00", some "0:30:00"⟩]
      = Except.error PyError.valueError ∧
    build_intervals ["Lunch"]
      [⟨"B", "Not Ready", "Lunch", "2024/01/15", "12:00:00", some "0:30:00"⟩]
      = Except.ok [⟨"B", "Lunch", 1705320000, 1705321800, true⟩] :=
  ⟨rfl, rfl⟩

/-- C4 (amended): with an empty configured selection set, `isin`
marks no interval as flagged (`flagged` is false everywhere, not
true), and consequently the detector reports no overlap at all. -/
theorem C4_empty_selection_reports_nothing (rows : List Row)
    (ivs : List Interval) (records : List Interval)
    (hok : build_intervals [] rows = Except.ok ivs)
    (hall : ∀ rec ∈ records, rec.is_lunch = false) :
    (∀ iv ∈ ivs, iv.is_lunch = false) ∧ find_overlaps records = [] :=
  ⟨build_intervals_nil_codes_unflagged hok, find_overlaps_nil_of_unflagged hall⟩

/-- Witness for C4's amended statement at a concrete batch. -/
theorem C4_witness :
    (∀ iv ∈ [(⟨"A", "Lunch", 1705320000, 1705323600, false⟩ : Interval),
      ⟨"B", "Break", 1705321800, 1705325400, false⟩], iv.is_lunch = false) ∧
    find_overlaps [(⟨"A", "Lunch", 1705320000, 1705323600, false⟩ : Interval),
      ⟨"B", "Break", 1705321800, 1705325400, false⟩] = [] :=
  C4_empty_selection_reports_nothing
    [⟨"A", "Not Ready", "Lunch", "2024/01/15", "12:00:00", some "1:00:00"⟩,
     ⟨"B", "Not Ready", "Break", "2024/01/15", "12:30:00", some "1:00:00"⟩]
    [⟨"A", "Lunch", 1705320000, 1705323600, false⟩,
     ⟨"B", "Break", 1705321800, 1705325400, false⟩]
    [⟨"A", "Lunch", 1705320000, 1705323600, false⟩,
     ⟨"B", "Break", 1705321800, 1705325400, false⟩]
    rfl (by decide)

/-- Counterexample to C4 as stated: with an empty selection set, the
two built Not-Ready intervals intersect across distinct agents, yet
both are unflagged and the detector reports nothing (the claim says
both would be flagged and the pair reported). -/
theorem C4_counterexample :
    build_intervals []
      [⟨"A", "Not Ready", "Lunch", "2024/01/15", "12:00:00", some "1:00:00"⟩,
       ⟨"B", "Not Ready", "Break", "2024/01/15", "12:30:00", some "1:00:00"⟩]
      = Except.ok [⟨"A", "Lunch", 1705320000, 1705323600, false⟩,
        ⟨"B", "Break", 1705321800, 1705325400, false⟩] ∧
    (⟨"A", "Lunch", 1705320000, 1705323600, false⟩ : Interval).is_lunch = false ∧
    max (1705320000 : Int) 1705321800 < min (1705323600 : Int) 1705325400 ∧
    find_overlaps [⟨"A", "Lunch", 1705320000, 1705323600, false⟩,
      ⟨"B", "Break", 1705321800, 1705325400, false⟩] = [] :=
  ⟨rfl, rfl, by decide, rfl⟩

instance : IsTotal ((String × String) × Nat) (fun a b => b.2 ≤ a.2) :=
  ⟨fun a b => Nat.le_total b.2 a.2⟩

instance : IsTrans ((String × String) × Nat) (fun a b => b.2 ≤ a.2) :=
  ⟨fun _ _ _ hab hbc => Nat.le_trans hbc hab⟩

/-- Both-on-lunch records used by the C9 concrete computations: two
tied pairs inserted in the order (B,C) then (A,B) — the reverse of
lexicographic order — so the groupby reordering is observable. -/
def C9records : List OverlapRecord :=
  [⟨"B", "C", 0, 60, 60, "Lunch", "Lunch", true, true, "Both on Lunch"⟩,
   ⟨"A", "B", 0, 60, 60, "Lunch", "Lunch", true, true, "Both on Lunch"⟩]

/-- C9 (amended): the top-5 ranking is computed over the both-flagged
records only (every ranked pair comes from such a record and carries
its exact incident count), is ordered by incident count descending,
and has at most five entries; but ties are NOT broken by record
insertion order — the grouping stage arranges group keys
lexicographically and the stable descending sort keeps tied groups in
that lexicographic order (see the counterexample). -/
theorem C9_ranking_corrected (records : List OverlapRecord) :
    (∀ p ∈ problematic_pairs records,
      0 < p.2 ∧
      p.2 = ((both_lunch_of records).filter
        (fun r => (r.agent1, r.agent2) == p.1)).length ∧
      ∃ r, r ∈ records ∧ r.overlap_type = "Both on Lunch" ∧
        (r.agent1, r.agent2) = p.1)
    ∧ (problematic_pairs records).Pairwise (fun a b => b.2 ≤ a.2)
    ∧ (problematic_pairs records).length ≤ 5 := by
  refine ⟨?_, ?_, List.length_take_le _ _⟩
  · intro p hp
    have hp2 := List.mem_of_mem_take hp
    rw [List.mem_insertionSort] at hp2
    unfold grouped_counts group_counts at hp2
    rw [List.mem_map] at hp2
    obtain ⟨k, hk, rfl⟩ := hp2
    rw [List.mem_insertionSort, List.mem_dedup, List.mem_map] at hk
    obtain ⟨r, hrbl, hrk⟩ := hk
    have hrrec := List.mem_filter.mp hrbl
    refine ⟨?_, rfl, r, hrrec.1, by simpa using hrrec.2, hrk⟩
    exact List.length_pos_of_mem
      (List.mem_filter.mpr ⟨hrbl, by simp [hrk]⟩)
  · exact List.Pairwise.sublist (List.take_sublist _ _)
      (List.sorted_insertionSort _ _)

/-- Witness for C9's amended statement at a concrete record list. -/
theorem C9_witness :
    0 < ((("B", "C"), 1) : (String × String) × Nat).2 ∧
    (problematic_pairs C9records).Pairwise
      (fun a b : (String × String) × Nat => b.2 ≤ a.2) ∧
    (problematic_pairs C9records).length ≤ 5 :=
  ⟨((C9_ranking_corrected C9records).1 (("B", "C"), 1) (by decide)).1,
   (C9_ranking_corrected C9records).2.1,
   (C9_ranking_corrected C9records).2.2⟩

/-- Counterexample to C9 as stated: the pairs (B,C) and (A,B) are
inserted in that order and tie at one incident each; the code's
ranking lists (A,B) first, because `groupby` rearranges the tied
groups into lexicographic key order and the stable descending sort
keeps that order, while the spec's ties-by-insertion-order ranking
(modelled as `problematic_pairs_spec`) lists (B,C) first. -/
theorem C9_tiebreak_counterexample :
    problematic_pairs C9records = [(("A", "B"), 1), (("B", "C"), 1)] ∧
    problematic_pairs_spec C9records = [(("B", "C"), 1), (("A", "B"), 1)] ∧
    problematic_pairs C9records ≠ problematic_pairs_spec C9records :=
  ⟨by decide, by decide, by decide⟩

/-- C10: the duration parser reads only the first three
colon-separated fields (extra fields are ignored:
`"1:02:03:04" ↦ 3723`), performs no range validation
(`"0:99:99" ↦ 6039`) and no sign validation (`"-1:00:00" ↦ -3600`),
and an interval with `end < start` participates in no overlap. -/
theorem C10_duration_parser_no_validation :
    (∀ p0 p1 p2 rest,
      parse_parts (p0 :: p1 :: p2 :: rest) = parse_parts [p0, p1, p2])
    ∧ parse_duration (some "1:02:03:04") = Except.ok 3723
    ∧ parse_duration (some "0:99:99") = Except.ok 6039
    ∧ parse_duration (some "-1:00:00") = Except.ok (-3600)
    ∧ (∀ rec1 rec2 : Interval, rec1.end_datetime < rec1.start_datetime →
        mk_overlap rec1 rec2 = none ∧ mk_overlap rec2 rec1 = none) := by
  refine ⟨fun p0 p1 p2 rest => rfl, rfl, rfl, rfl, ?_⟩
  intro rec1 rec2 h
  constructor
  · apply mk_overlap_none_of_no_window
    intro hlt
    have h1 : min rec1.end_datetime rec2.end_datetime ≤ rec1.end_datetime :=
      min_le_left _ _
    have h2 : rec1.start_datetime
        ≤ max rec1.start_datetime rec2.start_datetime := le_max_left _ _
    omega
  · apply mk_overlap_none_of_no_window
    intro hlt
    have h1 : min rec2.end_datetime rec1.end_datetime ≤ rec1.end_datetime :=
      min_le_right _ _
    have h2 : rec1.start_datetime
        ≤ max rec2.start_datetime rec1.start_datetime := le_max_right _ _
    omega

/-- Witness for C10 at concrete inputs: a four-field duration equals
its three-field truncation, and a negative-duration interval overlaps
nothing even against a fully covering interval. -/
theorem C10_witness :
    parse_parts ["1", "02", "03", "04"] = parse_parts ["1", "02", "03"] ∧
    mk_overlap ⟨"A", "Lunch", 100, 97, true⟩ ⟨"B", "Break", 0, 200, false⟩
      = none :=
  ⟨C10_duration_parser_no_validation.1 "1" "02" "03" ["04"],
   (C10_duration_parser_no_validation.2.2.2.2 ⟨"A", "Lunch", 100, 97, true⟩
     ⟨"B", "Break", 0, 200, false⟩ (by decide)).1⟩

end NotReady
